import Mathlib

/-!
# Verification of `hrs_to_osc.py` (BLE heart-rate sensor → OSC bridge)

Shallow embedding of the program's pure core and of its connection
supervisor loop, with theorems settling the specification claims.

Modelling conventions:
* Python `bytes`/`bytearray` payloads become `List Nat` (each element a
  byte value; range hypotheses are added where a claim needs them).
* Python numeric arithmetic inside the notification handler is modelled
  over `ℚ`.  Python raises `ZeroDivisionError` on division by zero (for
  floats as well as ints), so division is modelled as the checked
  `py_div`, returning `none` exactly when Python raises.  For the inputs
  considered here (integer bpm values) the sign / zero-ness of every
  intermediate quantity agrees between IEEE doubles and exact rationals:
  in particular `60/300 - 0.2` is exactly `0.0` in double arithmetic
  (both `60/300` and the literal `0.2` round to the same double), and for
  every other positive integer bpm the difference `60/bpm - 0.2` is far
  from zero, so the `none`/`some` behaviour of the model matches the
  raise/return behaviour of the code.
* A function that may raise an exception returns `Option`; `none` means
  the Python code raises at that point.
-/

/-- Embeds `parse_heart_rate` from `hrs_to_osc.py`:
length guard, flags byte, 8-bit vs little-endian 16-bit value. -/
def parse_heart_rate (data : List Nat) : Option Nat :=
  if data.length < 2 then
    none
  else
    let flags := data.getD 0 0
    if flags &&& 0x01 ≠ 0 then
      if 3 ≤ data.length then
        some (data.getD 1 0 + 256 * data.getD 2 0)
      else
        none
    else
      some (data.getD 1 0)

/-- `HR_CONST = 0.2` from the notification handler. -/
def HR_CONST : ℚ := 0.2

/-- `HR_FLEX = 0.2` from the notification handler. -/
def HR_FLEX : ℚ := 0.2

/-- Python division: raises (modelled as `none`) when the divisor is
zero, for floats as well as ints. -/
def py_div (a b : ℚ) : Option ℚ :=
  if b = 0 then none else some (a / b)

/-- The expression `1 / (1 / HR_CONST * (60 / heart_rate - HR_FLEX))`
from the notification handler, with every division checked the way
Python checks it. -/
def calculated_hr (heart_rate : ℚ) : Option ℚ := do
  let inv_const ← py_div 1 HR_CONST
  let beat ← py_div 60 heart_rate
  py_div 1 (inv_const * (beat - HR_FLEX))

/-- `normalized_hr = max(0.0, min(1.0, calculated_hr))`. -/
def normalized_hr (heart_rate : ℚ) : Option ℚ :=
  (calculated_hr heart_rate).map (fun c => max 0 (min 1 c))

/-- Argument of an OSC message: the handler sends the bpm as an integer
and the normalized value as a float (modelled as `ℚ`). -/
inductive OscValue where
  | int (n : Nat)
  | num (q : ℚ)
deriving DecidableEq, Repr

/-- One entry of the `send_list` handed to `send_osc`, and also one sent
OSC message (address, single argument). -/
structure OscData where
  address : String
  value : OscValue
deriving DecidableEq, Repr

/-- Embeds `send_osc`: each entry of the send list is sent to the
configured address concatenated with the entry's address suffix. -/
def send_osc (osc_address : String) (send_list : List OscData) : List OscData :=
  send_list.map (fun d => { d with address := osc_address ++ d.address })

/-- Embeds the closure produced by `create_notification_handler`.
Returns the list of OSC messages sent for one notification payload;
`none` means the handler raises (Python `ZeroDivisionError`) before
sending anything. The `if heart_rate:` truthiness test skips both the
decoder's `None` and a decoded value of `0`. -/
def notification_handler (osc_address : String) (data : List Nat) :
    Option (List OscData) :=
  match parse_heart_rate data with
  | none => some []
  | some heart_rate =>
    if heart_rate = 0 then some []
    else
      match normalized_hr (heart_rate : ℚ) with
      | none => none
      | some nh =>
        some (send_osc osc_address
          [⟨"heartbeat_value", OscValue.int heart_rate⟩,
           ⟨"heartbeat_waittime", OscValue.num nh⟩])

/-- A Python/JSON value as far as `merge_config` can observe it: the
merge only distinguishes mappings (`isinstance(value, dict)`) from
everything else.  Mappings are modelled as association lists in
insertion order, which is how Python dicts behave. -/
inductive PyVal where
  | dict (entries : List (String × PyVal))
  | str (s : String)
  | int (n : Int)
  | num (q : ℚ)
  | bool (b : Bool)
  | null

/-- `key in d` / `d[key]` on a Python dict modelled as an association
list: the first (and, for a real dict, only) binding of the key. -/
def lookupVal : List (String × PyVal) → String → Option PyVal
  | [], _ => none
  | (k, v) :: rest, key => if k = key then some v else lookupVal rest key

/-- `d[key] = v` on a Python dict: replace the existing binding in
place, else append a new one (dicts preserve insertion order). -/
def setVal : List (String × PyVal) → String → PyVal → List (String × PyVal)
  | [], key, v => [(key, v)]
  | (k, w) :: rest, key, v =>
    if k = key then (k, v) :: rest else (k, w) :: setVal rest key v

mutual

/-- The per-item decision of `merge_config`: given the value currently
bound to the key in `result` (if any) and the user value, recurse when
both are dicts, otherwise the user value overrides wholesale. -/
def merge_value : Option PyVal → PyVal → PyVal
  | some (PyVal.dict dv), PyVal.dict uv => PyVal.dict (merge_config dv uv)
  | _, value => value
termination_by _o value => sizeOf value

/-- Embeds `merge_config` from `hrs_to_osc.py`: start from a copy of the
defaults and fold the user items over it, applying `merge_value` at each
key. -/
def merge_config (result : List (String × PyVal)) :
    List (String × PyVal) → List (String × PyVal)
  | [] => result
  | (key, value) :: rest =>
    merge_config (setVal result key (merge_value (lookupVal result key) value))
      rest
termination_by u => sizeOf u

end

/-- The default `CONFIG` record from `hrs_to_osc.py`. -/
def CONFIG : List (String × PyVal) :=
  [("osc", PyVal.dict
      [("server_ip", PyVal.str "127.0.0.1"),
       ("server_port", PyVal.int 9000),
       ("address", PyVal.str "/avatar/parameters/")]),
   ("connection", PyVal.dict
      [("timeout", PyVal.num 20),
       ("max_retries", PyVal.int 5),
       ("retry_delay", PyVal.int 3),
       ("scan_timeout", PyVal.int 10),
       ("scan_retry_interval", PyVal.int 5),
       ("maintain_interval", PyVal.int 1)])]

/-- Outcome of reading the configuration file, as `initialize_config`
can observe it: the open/read fails (missing or unreadable file), the
JSON is malformed, or a value is parsed. -/
inductive ReadResult where
  | missing_or_unreadable
  | malformed_json
  | parsed (v : PyVal)

/-- Embeds `initialize_config`: every failure path is caught (missing
file and read errors by `except Exception`, bad JSON by
`except json.JSONDecodeError`, and a parsed non-dict by `except
Exception` around `merge_config`'s attribute access), leaving the
configuration unchanged; a parsed dict is deep-merged over the
defaults. -/
def initialize_config (config0 : List (String × PyVal)) (r : ReadResult) :
    List (String × PyVal) :=
  match r with
  | ReadResult.missing_or_unreadable => config0
  | ReadResult.malformed_json => config0
  | ReadResult.parsed (PyVal.dict u) => merge_config config0 u
  | ReadResult.parsed _ => config0

/-- The connection-tuning half of `CONFIG`, as the typed values the
`main` loop reads from it. -/
structure ConnectionConfig where
  timeout : ℚ
  max_retries : Nat
  retry_delay : ℚ
  scan_timeout : ℚ
  scan_retry_interval : ℚ
  maintain_interval : ℚ
deriving DecidableEq, Repr

/-- The `connection` defaults of `CONFIG`. -/
def default_connection_config : ConnectionConfig :=
  { timeout := 20
    max_retries := 5
    retry_delay := 3
    scan_timeout := 10
    scan_retry_interval := 5
    maintain_interval := 1 }

/-- The mutable state of the `while True` loop in `main`:
`device_address` and `retry_count`. -/
structure SupState where
  device_address : Option String
  retry_count : Nat
deriving DecidableEq, Repr

/-- Outcome of one `BleakClient` connect attempt: either the connection
opens (and, the notification subscription running, eventually drops,
leaving the `async with` block normally) or it fails with a timeout or
error (caught by the `except` arms, which increment the retry count). -/
inductive ConnectResult where
  | ok
  | fail
deriving DecidableEq, Repr

/-- The external world as one iteration of the loop can observe it: what
`scan_and_connect` would return if invoked, and how a connect attempt
would end if made. -/
structure LoopEnv where
  scan_result : Option String
  connect_result : ConnectResult
deriving DecidableEq, Repr

/-- Observable actions of one loop iteration, in program order.  Sleep
actions carry the duration the code passes to `asyncio.sleep`. -/
inductive SupAction where
  | scan_started
  | scan_retry_sleep (seconds : ℚ)
  | connect_attempt (addr : String) (attempt : Nat)
  | connect_success
  | connect_failure
  | reset_device_address
  | retry_sleep (seconds : ℚ)
deriving DecidableEq, Repr

/-- The `if retry_count >= CONFIG["connection"]["max_retries"]` block at
the bottom of the loop: on exhaustion clear the device address and reset
the counter, then sleep the retry delay; otherwise just sleep the retry
delay. -/
def retry_check (cfg : ConnectionConfig) (s : SupState) (acc : List SupAction) :
    SupState × List SupAction :=
  if cfg.max_retries ≤ s.retry_count then
    (⟨none, 0⟩,
     acc ++ [SupAction.reset_device_address, SupAction.retry_sleep cfg.retry_delay])
  else
    (s, acc ++ [SupAction.retry_sleep cfg.retry_delay])

/-- The connect attempt and its aftermath: on success the retry counter
is reset to 0 at once, the handler is subscribed and the link monitored
until it drops, after which control falls to the bottom-of-loop retry
check; on failure the counter is incremented and control falls to the
same check.  The attempt number recorded is `retry_count + 1`, as
printed by the code. -/
def connect_phase (cfg : ConnectionConfig) (addr : String) (s : SupState)
    (e : LoopEnv) (acc : List SupAction) : SupState × List SupAction :=
  match e.connect_result with
  | ConnectResult.ok =>
    retry_check cfg ⟨s.device_address, 0⟩
      (acc ++ [SupAction.connect_attempt addr (s.retry_count + 1),
               SupAction.connect_success])
  | ConnectResult.fail =>
    retry_check cfg ⟨s.device_address, s.retry_count + 1⟩
      (acc ++ [SupAction.connect_attempt addr (s.retry_count + 1),
               SupAction.connect_failure])

/-- One iteration of the `while True` loop in `main`: scan when no
device address is held (a failed scan sleeps the scan-retry interval and
`continue`s, skipping the retry check), then attempt to connect to the
held address. -/
def supervisor_step (cfg : ConnectionConfig) (s : SupState) (e : LoopEnv) :
    SupState × List SupAction :=
  match s.device_address with
  | none =>
    match e.scan_result with
    | none =>
      (s, [SupAction.scan_started, SupAction.scan_retry_sleep cfg.scan_retry_interval])
    | some addr =>
      connect_phase cfg addr ⟨some addr, s.retry_count⟩ e [SupAction.scan_started]
  | some addr => connect_phase cfg addr s e []

/-- Iterating the loop over a finite schedule of environments,
collecting the action trace. -/
def supervisor_run (cfg : ConnectionConfig) (s : SupState) :
    List LoopEnv → SupState × List SupAction
  | [] => (s, [])
  | e :: es =>
    let step := supervisor_step cfg s e
    let rest := supervisor_run cfg step.1 es
    (rest.1, step.2 ++ rest.2)

/-- Looking up a key just assigned finds the assigned value. -/
theorem lookupVal_setVal_self (r : List (String × PyVal)) (key : String)
    (v : PyVal) : lookupVal (setVal r key v) key = some v := by
  induction r with
  | nil => simp [setVal, lookupVal]
  | cons p rest ih =>
    obtain ⟨k, w⟩ := p
    by_cases hk : k = key
    · simp [setVal, lookupVal, hk]
    · simp [setVal, lookupVal, hk, ih]

/-- Assigning one key leaves lookups of other keys unchanged. -/
theorem lookupVal_setVal_other (r : List (String × PyVal)) (key key' : String)
    (v : PyVal) (hne : key ≠ key') :
    lookupVal (setVal r key v) key' = lookupVal r key' := by
  induction r with
  | nil => simp [setVal, lookupVal, hne]
  | cons p rest ih =>
    obtain ⟨k, w⟩ := p
    by_cases hk : k = key
    · subst hk
      simp [setVal, lookupVal, hne]
    · simp [setVal, lookupVal, hk, ih]

/-- A key absent from an association list looks up to `none`. -/
theorem lookupVal_eq_none_of_not_mem (r : List (String × PyVal)) (k : String)
    (h : k ∉ r.map Prod.fst) : lookupVal r k = none := by
  induction r with
  | nil => rfl
  | cons p rest ih =>
    obtain ⟨k', v⟩ := p
    rw [List.map_cons] at h
    have h1 : ¬k' = k := by
      intro hc
      exact h (by simp [hc])
    have h2 : k ∉ rest.map Prod.fst := fun hc => h (List.mem_cons_of_mem _ hc)
    simp [lookupVal, h1, ih h2]

/-- C7: `merge_config` is the deep merge of the user mapping onto the
defaults, key by key: a key absent from the override keeps its default
value; when both sides hold mappings for a key the merge recurses; in
every other case (including a non-mapping override replacing a mapping)
the override value wins wholesale.  The `Nodup` hypothesis records that
a Python dict binds each key once. -/
theorem c7_merge_config_lookup (u : List (String × PyVal))
    (d : List (String × PyVal)) (hu : (u.map Prod.fst).Nodup) (k : String) :
    lookupVal (merge_config d u) k =
      match lookupVal u k, lookupVal d k with
      | none, _ => lookupVal d k
      | some (PyVal.dict uv), some (PyVal.dict dv) =>
          some (PyVal.dict (merge_config dv uv))
      | some v, _ => some v := by
  induction u generalizing d with
  | nil => simp [merge_config, lookupVal]
  | cons p rest ih =>
    obtain ⟨key, value⟩ := p
    rw [List.map_cons, List.nodup_cons] at hu
    obtain ⟨hkey, hrest⟩ := hu
    rw [show merge_config d ((key, value) :: rest) =
          merge_config
            (setVal d key (merge_value (lookupVal d key) value)) rest
        from by rw [merge_config]]
    rw [ih _ hrest]
    by_cases hk : key = k
    · subst hk
      rw [lookupVal_eq_none_of_not_mem rest key hkey, lookupVal_setVal_self]
      rcases hdk : lookupVal d key with _ | w
      · cases value <;> simp [lookupVal, merge_value, hdk]
      · cases w <;> cases value <;> simp [lookupVal, merge_value, hdk]
    · rw [lookupVal_setVal_other d key k _ hk]
      simp [lookupVal, hk]

/-- Witness for C7: a concrete override of a non-mapping key wins
wholesale over the default `CONFIG`. -/
theorem c7_merge_config_lookup_witness :
    lookupVal (merge_config CONFIG [("connection", PyVal.int 7)])
      "connection" = some (PyVal.int 7) :=
  c7_merge_config_lookup [("connection", PyVal.int 7)] CONFIG
    (by simp) "connection"

/-- C8: `initialize_config` returns normally on every read outcome —
missing or unreadable file, malformed JSON, a parsed non-mapping, or a
parsed mapping — leaving the configuration either exactly as it was or
equal to the defaults deep-merged with the parsed override mapping. -/
theorem c8_initialize_config_total (config0 : List (String × PyVal))
    (r : ReadResult) :
    initialize_config config0 r = config0 ∨
    ∃ u, r = ReadResult.parsed (PyVal.dict u) ∧
      initialize_config config0 r = merge_config config0 u := by
  match r with
  | ReadResult.missing_or_unreadable => exact Or.inl rfl
  | ReadResult.malformed_json => exact Or.inl rfl
  | ReadResult.parsed (PyVal.dict u) => exact Or.inr ⟨u, rfl, rfl⟩
  | ReadResult.parsed (PyVal.str s) => exact Or.inl rfl
  | ReadResult.parsed (PyVal.int n) => exact Or.inl rfl
  | ReadResult.parsed (PyVal.num q) => exact Or.inl rfl
  | ReadResult.parsed (PyVal.bool b) => exact Or.inl rfl
  | ReadResult.parsed PyVal.null => exact Or.inl rfl

/-- C1: `parse_heart_rate` returns `none` on payloads shorter than 2
bytes; with flags bit 0 set it returns `none` exactly below 3 bytes and
otherwise the little-endian 16-bit value at bytes 1–2; with bit 0 clear
it returns byte 1 whatever follows; and the two scenario payloads decode
to 75. -/
theorem c1_parse_heart_rate_branches :
    (∀ data : List Nat, data.length < 2 → parse_heart_rate data = none) ∧
    (∀ flags b : Nat, flags &&& 0x01 ≠ 0 → parse_heart_rate [flags, b] = none) ∧
    (∀ (flags lo hi : Nat) (rest : List Nat), flags &&& 0x01 ≠ 0 →
      parse_heart_rate (flags :: lo :: hi :: rest) = some (lo + 256 * hi)) ∧
    (∀ (flags b : Nat) (rest : List Nat), flags &&& 0x01 = 0 →
      parse_heart_rate (flags :: b :: rest) = some b) ∧
    parse_heart_rate [0x00, 0x4B] = some 75 ∧
    parse_heart_rate [0x01, 0x4B, 0x00] = some 75 := by
  refine ⟨?_, ?_, ?_, ?_, by decide, by decide⟩
  · intro data h
    simp [parse_heart_rate, h]
  · intro flags b h
    have hm : flags % 2 = 1 := by
      have := Nat.and_one_is_mod flags
      omega
    simp [parse_heart_rate, Nat.and_one_is_mod, hm]
  · intro flags lo hi rest h
    have hm : flags % 2 = 1 := by
      have := Nat.and_one_is_mod flags
      omega
    simp [parse_heart_rate, Nat.and_one_is_mod, hm]
  · intro flags b rest h
    have hm : flags % 2 = 0 := by
      have := Nat.and_one_is_mod flags
      omega
    simp [parse_heart_rate, Nat.and_one_is_mod, hm]

/-- Witness for C1: instantiates every quantified branch at concrete
payloads. -/
theorem c1_parse_heart_rate_branches_witness :
    parse_heart_rate [0x00] = none ∧
    parse_heart_rate [0x01, 0x4B] = none ∧
    parse_heart_rate [0x01, 0x4B, 0x01, 0xFF] = some 331 ∧
    parse_heart_rate [0x00, 0x4B, 0xFF] = some 75 := by
  refine ⟨?_, ?_, ?_, ?_⟩
  · exact c1_parse_heart_rate_branches.1 [0x00] (by decide)
  · exact c1_parse_heart_rate_branches.2.1 0x01 0x4B (by decide)
  · exact c1_parse_heart_rate_branches.2.2.1 0x01 0x4B 0x01 [0xFF] (by decide)
  · exact c1_parse_heart_rate_branches.2.2.2.1 0x00 0x4B [0xFF] (by decide)

/-- C9: on byte-valued input `parse_heart_rate` is total (it is a plain
function into `Option`) and every decoded value is at most 65535. -/
theorem c9_parse_heart_rate_bounded (data : List Nat)
    (hbytes : ∀ b ∈ data, b < 256) :
    parse_heart_rate data = none ∨
    ∃ v, parse_heart_rate data = some v ∧ v ≤ 65535 := by
  match data with
  | [] => left; rfl
  | [f] => left; rfl
  | f :: b :: rest =>
    have hb : b < 256 := hbytes b (by simp)
    by_cases hf : f % 2 = 1
    · match rest with
      | [] =>
        left
        simp [parse_heart_rate, Nat.and_one_is_mod, hf]
      | c :: rest' =>
        have hc : c < 256 := hbytes c (by simp)
        right
        refine ⟨b + 256 * c, ?_, by omega⟩
        simp [parse_heart_rate, Nat.and_one_is_mod, hf]
    · right
      have hf0 : f % 2 = 0 := by omega
      refine ⟨b, ?_, by omega⟩
      simp [parse_heart_rate, Nat.and_one_is_mod, hf0]

/-- Witness for C9: the bound evaluated on a concrete maximal payload. -/
theorem c9_parse_heart_rate_bounded_witness :
    parse_heart_rate [0x01, 0xFF, 0xFF] = none ∨
    ∃ v, parse_heart_rate [0x01, 0xFF, 0xFF] = some v ∧ v ≤ 65535 :=
  c9_parse_heart_rate_bounded [0x01, 0xFF, 0xFF] (by decide)

/-- The two handler constants evaluate to `1/5`. -/
theorem HR_CONST_val : HR_CONST = 1/5 ∧ HR_FLEX = 1/5 := by
  constructor <;> norm_num [HR_CONST, HR_FLEX]

/-- Away from `bpm = 0` (int division raises) and `bpm = 300` (the
flex-adjusted period is exactly zero, so the outer division raises),
`normalized_hr` returns the clamp of the spec formula. -/
theorem normalized_hr_eq (bpm : ℚ) (h0 : bpm ≠ 0) (h300 : bpm ≠ 300) :
    normalized_hr bpm =
      some (max 0 (min 1 (1 / (5 * (60 / bpm - 1/5))))) := by
  have hdenom : (5:ℚ) * (60 / bpm - 1/5) ≠ 0 := by
    intro hc
    apply h300
    have h1 : (60:ℚ) / bpm = 1/5 := by linarith
    rw [div_eq_div_iff h0 (by norm_num : (5:ℚ) ≠ 0)] at h1
    linarith
  have hc1 : HR_CONST ≠ 0 := by rw [HR_CONST_val.1]; norm_num
  have hc2 : (1:ℚ) / HR_CONST = 5 := by rw [HR_CONST_val.1]; norm_num
  have hsub : (60:ℚ) / bpm - 1/5 ≠ 0 := by
    intro hc
    exact hdenom (by rw [hc]; ring)
  simp only [normalized_hr, calculated_hr, py_div, hc1, if_neg hc1, h0,
    if_neg h0, HR_CONST_val.1, HR_CONST_val.2]
  norm_num
  exact ⟨_, ⟨hsub, rfl⟩, rfl⟩

/-- The clamp `max 0 (min 1 x)` always lands in `[0, 1]`. -/
theorem clamp_mem (x : ℚ) : 0 ≤ max 0 (min 1 x) ∧ max 0 (min 1 x) ≤ 1 :=
  ⟨le_max_left _ _, max_le (by norm_num) (min_le_left _ _)⟩

/-- C2 (amended): for bpm in (0, 300) the handler arithmetic yields the
clamp of `1 / ((1/0.2) * (60/bpm - 0.2))`, which lies in [0, 1]; at
bpm = 300 the flex-adjusted period is exactly zero and the division
raises `ZeroDivisionError` (modelled as `none`) instead of producing a
clamped value. -/
theorem c2_mapper_clamped :
    (∀ bpm : ℚ, 0 < bpm → bpm < 300 →
      ∃ v, normalized_hr bpm = some v ∧
        v = max 0 (min 1 (1 / (1 / HR_CONST * (60 / bpm - HR_FLEX)))) ∧
        0 ≤ v ∧ v ≤ 1) ∧
    normalized_hr 300 = none := by
  constructor
  · intro bpm hpos hlt
    refine ⟨max 0 (min 1 (1 / (5 * (60 / bpm - 1/5)))), ?_, ?_, clamp_mem _⟩
    · exact normalized_hr_eq bpm (ne_of_gt hpos) (ne_of_lt hlt)
    · rw [HR_CONST_val.1, HR_CONST_val.2]
      norm_num
  · norm_num [normalized_hr, calculated_hr, py_div, HR_CONST, HR_FLEX]

/-- Witness for C2: the amended claim evaluated at bpm = 60. -/
theorem c2_mapper_clamped_witness :
    ∃ v, normalized_hr 60 = some v ∧
      v = max 0 (min 1 (1 / (1 / HR_CONST * (60 / 60 - HR_FLEX)))) ∧
      0 ≤ v ∧ v ≤ 1 :=
  c2_mapper_clamped.1 60 (by norm_num) (by norm_num)

/-- C2 counterexample: at bpm = 300 — inside the claimed domain
(0, 300] — the computation does not yield a clamped value at all: the
division raises (modelled as `none`). -/
theorem c2_mapper_counterexample : normalized_hr 300 = none := by
  norm_num [normalized_hr, calculated_hr, py_div, HR_CONST, HR_FLEX]

/-- C4: when the decoder yields `None` or a zero bpm, the handler sends
nothing at all; moreover the mapper arithmetic is provably never run in
that branch, since running it at bpm = 0 would raise (`normalized_hr 0 =
none`) while the handler still returns successfully with no messages. -/
theorem c4_skip_no_value_and_zero :
    (∀ (osc_address : String) (data : List Nat),
      parse_heart_rate data = none ∨ parse_heart_rate data = some 0 →
      notification_handler osc_address data = some []) ∧
    normalized_hr 0 = none := by
  constructor
  · intro osc_address data h
    rcases h with h | h <;> simp [notification_handler, h]
  · norm_num [normalized_hr, calculated_hr, py_div, HR_CONST, HR_FLEX]

/-- Witness for C4: the empty payload (decoder `None`) and a zero-bpm
payload both produce no messages. -/
theorem c4_skip_no_value_and_zero_witness :
    notification_handler "/avatar/parameters/" [] = some [] ∧
    notification_handler "/avatar/parameters/" [0x00, 0x00] = some [] :=
  ⟨c4_skip_no_value_and_zero.1 "/avatar/parameters/" [] (Or.inl rfl),
   c4_skip_no_value_and_zero.1 "/avatar/parameters/" [0x00, 0x00] (Or.inr rfl)⟩

/-- At bpm = 300 the handler arithmetic raises: `60/300 - 0.2 = 0`. -/
theorem normalized_hr_300 : normalized_hr 300 = none := by
  norm_num [normalized_hr, calculated_hr, py_div, HR_CONST, HR_FLEX]

/-- C5 (amended): for every notification decoding to a nonzero bpm other
than 300, the handler sends exactly two single-argument messages, at the
configured address concatenated with "heartbeat_value" (the bpm as an
integer) and with "heartbeat_waittime" (the clamped cadence signal in
[0, 1]); at bpm = 300 the handler raises before sending anything. -/
theorem c5_two_messages (osc_address : String) (data : List Nat) (hr : Nat)
    (hparse : parse_heart_rate data = some hr) (h0 : hr ≠ 0) (h300 : hr ≠ 300) :
    ∃ w, 0 ≤ w ∧ w ≤ 1 ∧
      notification_handler osc_address data =
        some [⟨osc_address ++ "heartbeat_value", OscValue.int hr⟩,
              ⟨osc_address ++ "heartbeat_waittime", OscValue.num w⟩] := by
  have hq0 : (hr:ℚ) ≠ 0 := Nat.cast_ne_zero.mpr h0
  have hq300 : (hr:ℚ) ≠ 300 := by
    intro hc
    exact h300 (by exact_mod_cast hc)
  refine ⟨max 0 (min 1 (1 / (5 * (60 / (hr:ℚ) - 1/5)))),
    (clamp_mem _).1, (clamp_mem _).2, ?_⟩
  simp [notification_handler, hparse, h0, normalized_hr_eq _ hq0 hq300, send_osc]

/-- Witness for C5: the amended claim at payload `[0x00, 0x4B]`
(bpm = 75). -/
theorem c5_two_messages_witness :
    ∃ w, 0 ≤ w ∧ w ≤ 1 ∧
      notification_handler "/avatar/parameters/" [0x00, 0x4B] =
        some [⟨"/avatar/parameters/" ++ "heartbeat_value", OscValue.int 75⟩,
              ⟨"/avatar/parameters/" ++ "heartbeat_waittime", OscValue.num w⟩] :=
  c5_two_messages "/avatar/parameters/" [0x00, 0x4B] 75 (by decide)
    (by decide) (by decide)

/-- C5 counterexample: the payload `[0x01, 0x2C, 0x01]` decodes to the
nonzero bpm 300, yet the handler sends no message at all — the cadence
division raises `ZeroDivisionError` first — refuting "exactly two OSC
messages for every nonzero decoded bpm". -/
theorem c5_two_messages_counterexample :
    parse_heart_rate [0x01, 0x2C, 0x01] = some 300 ∧
    notification_handler "/avatar/parameters/" [0x01, 0x2C, 0x01] = none := by
  constructor
  · decide
  · have hp : parse_heart_rate [0x01, 0x2C, 0x01] = some 300 := by decide
    simp [notification_handler, hp, normalized_hr_300]

/-- C10: for every payload decoding to a bpm above 300 (admitted by the
16-bit path), the raw mapper value is negative, the clamp yields exactly
0, and forwarding still happens: both messages are sent, with
heartbeat_value carrying the bpm and heartbeat_waittime carrying 0. -/
theorem c10_high_bpm_forwarded (osc_address : String) (data : List Nat)
    (hr : Nat) (hparse : parse_heart_rate data = some hr) (hhigh : 300 < hr) :
    1 / (1 / HR_CONST * (60 / (hr:ℚ) - HR_FLEX)) < 0 ∧
    notification_handler osc_address data =
      some [⟨osc_address ++ "heartbeat_value", OscValue.int hr⟩,
            ⟨osc_address ++ "heartbeat_waittime", OscValue.num 0⟩] := by
  have hq0 : (0:ℚ) < (hr:ℚ) := by exact_mod_cast Nat.lt_trans (by norm_num) hhigh
  have hq300 : (300:ℚ) < (hr:ℚ) := by exact_mod_cast hhigh
  have hsub : (60:ℚ) / (hr:ℚ) < 1/5 := by
    rw [div_lt_div_iff₀ hq0 (by norm_num : (0:ℚ) < 5)]
    linarith
  have hdneg : (5:ℚ) * (60 / (hr:ℚ) - 1/5) < 0 := by nlinarith
  have hraw : 1 / ((5:ℚ) * (60 / (hr:ℚ) - 1/5)) < 0 := one_div_neg.mpr hdneg
  have hclamp : max 0 (min 1 (1 / ((5:ℚ) * (60 / (hr:ℚ) - 1/5)))) = 0 := by
    rw [min_eq_right (by linarith), max_eq_left (by linarith)]
  constructor
  · rw [HR_CONST_val.1, HR_CONST_val.2]
    norm_num
    norm_num at hraw
    exact hraw
  · have heq := normalized_hr_eq (hr:ℚ) (ne_of_gt hq0) (ne_of_gt hq300)
    rw [hclamp] at heq
    simp [notification_handler, hparse, heq, send_osc]
    omega

/-- Witness for C10: the payload `[0x01, 0x2D, 0x01]` decodes to 301 and
is forwarded with cadence signal 0. -/
theorem c10_high_bpm_forwarded_witness :
    1 / (1 / HR_CONST * (60 / ((301:Nat):ℚ) - HR_FLEX)) < 0 ∧
    notification_handler "/avatar/parameters/" [0x01, 0x2D, 0x01] =
      some [⟨"/avatar/parameters/" ++ "heartbeat_value", OscValue.int 301⟩,
            ⟨"/avatar/parameters/" ++ "heartbeat_waittime", OscValue.num 0⟩] :=
  c10_high_bpm_forwarded "/avatar/parameters/" [0x01, 0x2D, 0x01] 301
    (by decide) (by decide)

/-- Running the loop over a concatenated schedule runs the pieces in
sequence and concatenates the traces. -/
theorem supervisor_run_append (cfg : ConnectionConfig) (s : SupState)
    (es1 es2 : List LoopEnv) :
    supervisor_run cfg s (es1 ++ es2) =
      ((supervisor_run cfg (supervisor_run cfg s es1).1 es2).1,
       (supervisor_run cfg s es1).2 ++
         (supervisor_run cfg (supervisor_run cfg s es1).1 es2).2) := by
  induction es1 generalizing s with
  | nil => simp [supervisor_run]
  | cons e es ih => simp [supervisor_run, ih]

/-- While the retry budget lasts, a run of `n` consecutive connect
failures from retry count `j` (with `j + n` exhausting the budget) ends
with the device address cleared and the counter reset to 0; the trace
contains the reset but no successful connect and no scan. -/
theorem run_fail_clears (cfg : ConnectionConfig) (a : String) :
    ∀ n j : Nat, j + n = cfg.max_retries → 1 ≤ n →
    ∃ t, supervisor_run cfg ⟨some a, j⟩
        (List.replicate n ⟨none, ConnectResult.fail⟩) = (⟨none, 0⟩, t) ∧
      SupAction.reset_device_address ∈ t ∧
      SupAction.connect_success ∉ t ∧
      SupAction.scan_started ∉ t := by
  intro n
  induction n with
  | zero => intro j hsum h1; omega
  | succ m ih =>
    intro j hsum _
    by_cases hm : m = 0
    · subst hm
      have hle : cfg.max_retries ≤ j + 1 := by omega
      refine ⟨[SupAction.connect_attempt a (j + 1), SupAction.connect_failure,
               SupAction.reset_device_address,
               SupAction.retry_sleep cfg.retry_delay],
        ?_, by simp, by simp, by simp⟩
      simp [supervisor_run, supervisor_step, connect_phase, retry_check, hle]
    · have hm1 : 1 ≤ m := by omega
      have hlt : ¬cfg.max_retries ≤ j + 1 := by omega
      obtain ⟨t, ht, hmem, hns, hnscan⟩ := ih (j + 1) (by omega) hm1
      refine ⟨[SupAction.connect_attempt a (j + 1), SupAction.connect_failure,
               SupAction.retry_sleep cfg.retry_delay] ++ t,
        ?_, by simp [hmem], by simp [hns], by simp [hnscan]⟩
      rw [List.replicate_succ]
      simp [supervisor_run, supervisor_step, connect_phase, retry_check,
        hlt, ht]

/-- C3: a successful connect resets the retry counter to 0; a failed
connect that brings the counter up to `max_retries` clears the device
address and resets the counter in the same iteration; a failed connect
below the budget keeps the address and just increments the counter; and
in the Scenario-E run — connect fails exactly `max_retries` times, then
the next attempt succeeds — the address is cleared and a fresh scan
precedes the successful attempt, whose attempt number is 1 and after
which the counter reads 0. -/
theorem c3_retry_policy :
    (∀ (cfg : ConnectionConfig) (s : SupState) (e : LoopEnv) (addr : String),
      s.device_address = some addr → e.connect_result = ConnectResult.ok →
      (supervisor_step cfg s e).1.retry_count = 0) ∧
    (∀ (cfg : ConnectionConfig) (s : SupState) (e : LoopEnv) (addr : String),
      s.device_address = some addr → e.connect_result = ConnectResult.fail →
      cfg.max_retries ≤ s.retry_count + 1 →
      (supervisor_step cfg s e).1 = ⟨none, 0⟩) ∧
    (∀ (cfg : ConnectionConfig) (s : SupState) (e : LoopEnv) (addr : String),
      s.device_address = some addr → e.connect_result = ConnectResult.fail →
      s.retry_count + 1 < cfg.max_retries →
      (supervisor_step cfg s e).1 = ⟨some addr, s.retry_count + 1⟩) ∧
    (∀ (cfg : ConnectionConfig) (a b : String), 1 ≤ cfg.max_retries →
      ∃ t, supervisor_run cfg ⟨some a, 0⟩
          (List.replicate cfg.max_retries ⟨none, ConnectResult.fail⟩ ++
            [⟨some b, ConnectResult.ok⟩]) =
          (⟨some b, 0⟩,
           t ++ [SupAction.scan_started, SupAction.connect_attempt b 1,
                 SupAction.connect_success,
                 SupAction.retry_sleep cfg.retry_delay]) ∧
        SupAction.reset_device_address ∈ t ∧
        SupAction.connect_success ∉ t ∧
        SupAction.scan_started ∉ t) := by
  refine ⟨?_, ?_, ?_, ?_⟩
  · intro cfg s e addr hda hok
    simp [supervisor_step, hda, connect_phase, hok, retry_check]
    split <;> simp
  · intro cfg s e addr hda hfail hle
    simp [supervisor_step, hda, connect_phase, hfail, retry_check, hle]
  · intro cfg s e addr hda hfail hlt
    have hnle : ¬cfg.max_retries ≤ s.retry_count + 1 := by omega
    simp [supervisor_step, hda, connect_phase, hfail, retry_check, hnle]
  · intro cfg a b hmax
    obtain ⟨t, ht, hmem, hns, hnscan⟩ :=
      run_fail_clears cfg a cfg.max_retries 0 (by omega) hmax
    refine ⟨t, ?_, hmem, hns, hnscan⟩
    rw [supervisor_run_append, ht]
    have hnle : ¬cfg.max_retries ≤ 0 := by omega
    simp [supervisor_run, supervisor_step, connect_phase, retry_check, hnle]

/-- Witness for C3: each part of the policy evaluated at the default
configuration (max_retries = 5). -/
theorem c3_retry_policy_witness :
    (supervisor_step default_connection_config ⟨some "AA", 3⟩
        ⟨none, ConnectResult.ok⟩).1.retry_count = 0 ∧
    (supervisor_step default_connection_config ⟨some "AA", 4⟩
        ⟨none, ConnectResult.fail⟩).1 = ⟨none, 0⟩ ∧
    (supervisor_step default_connection_config ⟨some "AA", 2⟩
        ⟨none, ConnectResult.fail⟩).1 = ⟨some "AA", 3⟩ ∧
    ∃ t, supervisor_run default_connection_config ⟨some "AA", 0⟩
        (List.replicate default_connection_config.max_retries
          ⟨none, ConnectResult.fail⟩ ++ [⟨some "BB", ConnectResult.ok⟩]) =
        (⟨some "BB", 0⟩,
         t ++ [SupAction.scan_started, SupAction.connect_attempt "BB" 1,
               SupAction.connect_success,
               SupAction.retry_sleep default_connection_config.retry_delay]) ∧
      SupAction.reset_device_address ∈ t ∧
      SupAction.connect_success ∉ t ∧
      SupAction.scan_started ∉ t :=
  ⟨c3_retry_policy.1 default_connection_config ⟨some "AA", 3⟩
      ⟨none, ConnectResult.ok⟩ "AA" rfl rfl,
   c3_retry_policy.2.1 default_connection_config ⟨some "AA", 4⟩
      ⟨none, ConnectResult.fail⟩ "AA" rfl rfl (by decide),
   c3_retry_policy.2.2.1 default_connection_config ⟨some "AA", 2⟩
      ⟨none, ConnectResult.fail⟩ "AA" rfl rfl (by decide),
   c3_retry_policy.2.2.2 default_connection_config "AA" "BB" (by decide)⟩

/-- C6: with a scanner that never finds a device, the loop never
terminates and never attempts a connect: every iteration scans, sleeps
the configured scan-retry interval, and leaves the state unchanged —
for every number of iterations the run continues from the same state. -/
theorem c6_scan_retry_forever (cfg : ConnectionConfig) (r n : Nat)
    (c : ConnectResult) :
    supervisor_run cfg ⟨none, r⟩ (List.replicate n ⟨none, c⟩) =
      (⟨none, r⟩,
       (List.replicate n
         [SupAction.scan_started,
          SupAction.scan_retry_sleep cfg.scan_retry_interval]).flatten) ∧
    ∀ (a : String) (k : Nat),
      SupAction.connect_attempt a k ∉
        (supervisor_run cfg ⟨none, r⟩ (List.replicate n ⟨none, c⟩)).2 := by
  have key : ∀ m : Nat,
      supervisor_run cfg ⟨none, r⟩ (List.replicate m ⟨none, c⟩) =
        (⟨none, r⟩,
         (List.replicate m
           [SupAction.scan_started,
            SupAction.scan_retry_sleep cfg.scan_retry_interval]).flatten) := by
    intro m
    induction m with
    | zero => simp [supervisor_run]
    | succ i ih =>
      rw [List.replicate_succ, List.replicate_succ]
      simp [supervisor_run, supervisor_step, ih]
  refine ⟨key n, ?_⟩
  intro a k hmem
  rw [key n] at hmem
  simp only [List.mem_flatten] at hmem
  obtain ⟨l, hl, hx⟩ := hmem
  rw [List.eq_of_mem_replicate hl] at hx
  simp at hx

/-- Witness for C6: three failed scans at the default configuration. -/
theorem c6_scan_retry_forever_witness :
    supervisor_run default_connection_config ⟨none, 0⟩
        (List.replicate 3 ⟨none, ConnectResult.fail⟩) =
      (⟨none, 0⟩,
       (List.replicate 3
         [SupAction.scan_started,
          SupAction.scan_retry_sleep
            default_connection_config.scan_retry_interval]).flatten) ∧
    SupAction.connect_attempt "AA" 1 ∉
      (supervisor_run default_connection_config ⟨none, 0⟩
        (List.replicate 3 ⟨none, ConnectResult.fail⟩)).2 :=
  ⟨(c6_scan_retry_forever default_connection_config 0 3 ConnectResult.fail).1,
   (c6_scan_retry_forever default_connection_config 0 3 ConnectResult.fail).2
     "AA" 1⟩
